import Mathlib

/-!
# Shallow embedding of the `gh_reports` statistics scripts

This file embeds the aggregation, formatting and configuration logic of the
`gh_reports` repository (`prs_report.py`, `reviews_report.py`, `gh_utils.py`
and `scripts/gh_utils.py`) and proves properties of that logic.

Modelling conventions:
* timestamps are UTC epoch seconds (`Int`); Python `datetime` subtraction
  followed by `total_seconds() / 3600.0` becomes exact rational arithmetic
  over `ℚ` (floats are modelled as exact rationals);
* Python `None` becomes `Option.none`; Python truthiness of a string value is
  "present and non-empty", truthiness of an object (user, datetime) is
  "present", truthiness of a list is "non-empty";
* the external GitHub client is out of scope: aggregators receive the list of
  `PullRequest` records directly, and `dateutil.parser.parse` is passed in as
  an oracle function argument where a model needs it;
* HTTP calls performed by the publishers are modelled by an explicit outcome
  value (`HttpResult`): either a status code or a raised network exception.
-/

/-- A review on a pull request, as surfaced by the GitHub API: the reviewer's
login (`None` when the account is gone), the raw state string (may be absent),
and the submission instant in epoch seconds (may be absent). -/
structure Review where
  user : Option String
  state : Option String
  submitted_at : Option Int
deriving Repr, DecidableEq

/-- A comment (inline review comment or issue-level comment): author login and
creation instant in epoch seconds. -/
structure Comment where
  user : Option String
  created_at : Int
deriving Repr, DecidableEq

/-- A pull-request record with its nested review and comment collections. -/
structure PullRequest where
  created_at : Int
  merged_at : Option Int
  reviews : List Review
  review_comments : List Comment
  issue_comments : List Comment
deriving Repr, DecidableEq

/-- `(t1 - t0).total_seconds() / 3600.0`: elapsed hours between two epoch
instants, as an exact rational. -/
def hoursBetween (t0 t1 : Int) : ℚ :=
  ((t1 - t0 : Int) : ℚ) / 3600

/-- Python truthiness of an optional string: present and non-empty. -/
def strTruthy : Option String → Bool
  | none => false
  | some s => s ≠ ""

/-- `str.upper()`: uppercase every character (the review states handled by
the scripts are ASCII, where Python's and Lean's per-character uppercase
agree). -/
def pyUpper (s : String) : String :=
  ⟨s.data.map Char.toUpper⟩

/-- The inline pattern `sum(l) / len(l) if l else None` used by both
aggregators to turn a sample list into an optional mean. -/
def optionalAvg (xs : List ℚ) : Option ℚ :=
  if xs.isEmpty then none else some (xs.sum / (xs.length : ℚ))

/-- Zero-pad a natural number to two digits, as in ISO date components. -/
def pad2 (n : Nat) : String :=
  if n < 10 then "0" ++ toString n else toString n

/-- Zero-pad a year to four digits (as `date.isoformat()` does). -/
def pad4 (n : Int) : String :=
  if n < 10 then "000" ++ toString n
  else if n < 100 then "00" ++ toString n
  else if n < 1000 then "0" ++ toString n
  else toString n

/-- Civil date (year, month, day) of a day count relative to 1970-01-01,
following the standard proleptic-Gregorian conversion. -/
def civilFromDays (z0 : Int) : Int × Nat × Nat :=
  let z := z0 + 719468
  let era : Int := z.fdiv 146097
  let doe : Int := z - era * 146097
  let yoe : Int := (doe - doe.fdiv 1460 + doe.fdiv 36524 - doe.fdiv 146096).fdiv 365
  let y : Int := yoe + era * 400
  let doy : Int := doe - (365 * yoe + yoe.fdiv 4 - yoe.fdiv 100)
  let mp : Int := (5 * doy + 2).fdiv 153
  let d : Int := doy - (153 * mp + 2).fdiv 5 + 1
  let m : Int := mp + (if mp < 10 then 3 else -9)
  (y + (if m ≤ 2 then 1 else 0), m.toNat, d.toNat)

/-- `dt.date().isoformat()` for an epoch-seconds instant (UTC). -/
def isoDate (secs : Int) : String :=
  let c := civilFromDays (secs.fdiv 86400)
  pad4 c.1 ++ "-" ++ pad2 c.2.1 ++ "-" ++ pad2 c.2.2

/-- Round a rational to the nearest integer, ties to even (the rounding used
by `format(x, '.2f')` on the underlying decimal value). -/
def roundHalfEven (q : ℚ) : Int :=
  let f : Int := ⌊q⌋
  let r : ℚ := q - (f : ℚ)
  if r < 1/2 then f
  else if 1/2 < r then f + 1
  else if f % 2 = 0 then f else f + 1

/-- Render a non-negative hundredths count as `d.dd`. -/
def fmt2Nat (n : Nat) : String :=
  toString (n / 100) ++ "." ++ pad2 (n % 100)

/-- `f"{x:.2f}"`: fixed-point rendering of an (exact-rational model of a)
float with two decimal places. -/
def fmt2 (q : ℚ) : String :=
  let n : Int := roundHalfEven (q * 100)
  if n < 0 then "-" ++ fmt2Nat n.natAbs else fmt2Nat n.natAbs

namespace PrsReport

/-- `count_comments_received(pr, username)` from `prs_report.py`: comments on
the PR (both inline review comments and issue comments) whose author is
present and is not `username`.  Modelled as one recursion per comment list,
mirroring the two `for` loops. -/
def countOtherComments (username : String) : List Comment → Nat
  | [] => 0
  | c :: cs =>
    let rest := countOtherComments username cs
    match c.user with
    | some login => if login = username then rest else rest + 1
    | none => rest

/-- `count_comments_received(pr, username)` from `prs_report.py`. -/
def count_comments_received (pr : PullRequest) (username : String) : Nat :=
  countOtherComments username pr.review_comments
    + countOtherComments username pr.issue_comments

/-- The review loop of `process_pr_timings`: skip reviews whose user is
absent or equal to `username`; for state `APPROVED` (after `upper()`) with a
present `submitted_at`, append `(submitted_at - created_at)` in hours.
(The `CHANGES_REQUESTED` branch of the source is a `pass` and adds nothing.) -/
def approvalDeltasLoop (username : String) (created_at : Int) : List Review → List ℚ
  | [] => []
  | r :: rs =>
    let rest := approvalDeltasLoop username created_at rs
    match r.user with
    | none => rest
    | some login =>
      if login = username then rest
      else
        if pyUpper (r.state.getD "") = "APPROVED" then
          match r.submitted_at with
          | some s => hoursBetween created_at s :: rest
          | none => rest
        else rest

/-- `process_pr_timings(pr, username)` from `prs_report.py`: the list of
approval latencies in hours and the optional merge latency in hours. -/
def process_pr_timings (pr : PullRequest) (username : String) :
    List ℚ × Option ℚ :=
  let approval_deltas := approvalDeltasLoop username pr.created_at pr.reviews
  let merged_delta : Option ℚ :=
    match pr.merged_at with
    | some m => some (hoursBetween pr.created_at m)
    | none => none
  (approval_deltas, merged_delta)

/-- The inner review loop of `aggregate_pr_stats`: count reviews with a truthy
state, a present user distinct from `username`, and `state.upper() ==
"CHANGES_REQUESTED"`. -/
def changeRequestsLoop (username : String) : List Review → Nat
  | [] => 0
  | r :: rs =>
    let rest := changeRequestsLoop username rs
    match r.state, r.user with
    | some st, some login =>
      if st ≠ "" ∧ login ≠ username ∧ pyUpper st = "CHANGES_REQUESTED"
      then rest + 1 else rest
    | _, _ => rest

/-- The mutable accumulators of `aggregate_pr_stats`. -/
structure PrAcc where
  prs_count : Nat
  change_requests_received : Nat
  approval_hours : List ℚ
  merged_hours : List ℚ
  comments_received : Nat
deriving Repr, DecidableEq

/-- The per-PR loop body of `aggregate_pr_stats`, folded over the fetched
records in order. -/
def aggregatePrLoop (username : String) (acc : PrAcc) : List PullRequest → PrAcc
  | [] => acc
  | pr :: rest =>
    let timings := process_pr_timings pr username
    aggregatePrLoop username
      { prs_count := acc.prs_count + 1
        change_requests_received :=
          acc.change_requests_received + changeRequestsLoop username pr.reviews
        approval_hours := acc.approval_hours ++ timings.1
        merged_hours :=
          acc.merged_hours ++ (match timings.2 with
            | some m => [m]
            | none => [])
        comments_received :=
          acc.comments_received + count_comments_received pr username }
      rest

/-- The dictionary returned by `aggregate_pr_stats`. -/
structure PrStats where
  start_dt : Int
  end_dt : Int
  prs_count : Nat
  change_requests_received : Nat
  avg_hours_to_approval : Option ℚ
  avg_hours_to_merge : Option ℚ
  comments_received : Nat
deriving Repr, DecidableEq

/-- `aggregate_pr_stats(issues, g, username, start_dt, end_dt)` from
`prs_report.py`, receiving the resolved pull-request records directly (the
`issue -> repo -> pull` indirection is pure data fetching). -/
def aggregate_pr_stats (prs : List PullRequest) (username : String)
    (start_dt end_dt : Int) : PrStats :=
  let acc := aggregatePrLoop username ⟨0, 0, [], [], 0⟩ prs
  { start_dt := start_dt
    end_dt := end_dt
    prs_count := acc.prs_count
    change_requests_received := acc.change_requests_received
    avg_hours_to_approval := optionalAvg acc.approval_hours
    avg_hours_to_merge := optionalAvg acc.merged_hours
    comments_received := acc.comments_received }

/-- The `lines` list built by `format_plain_report` in `prs_report.py`
(the function returns `"\n".join(lines)`). -/
def report_lines (stats : PrStats) : List String :=
  ["PRs report",
   "Date range: " ++ (isoDate stats.start_dt ++ (" .. " ++ isoDate stats.end_dt)),
   "Number of PRs created: " ++ toString stats.prs_count,
   "Change requests received: " ++ toString stats.change_requests_received,
   "Comments received on your PRs: " ++ toString stats.comments_received]
  ++ [match stats.avg_hours_to_approval with
      | some q => "Average hours until approval: " ++ (fmt2 q ++ " hours")
      | none => "No approvals found in range."]
  ++ [match stats.avg_hours_to_merge with
      | some q => "Average hours until merge: " ++ (fmt2 q ++ " hours")
      | none => "No merges found in range."]

/-- `format_plain_report(stats)` from `prs_report.py`. -/
def format_plain_report (stats : PrStats) : String :=
  String.intercalate "\n" (report_lines stats)

end PrsReport

namespace ReviewsReport

/-- One comment loop of `count_comments_for_pr` in `reviews_report.py`:
author present and equal to `username`, and `start_dt <= created_at <=
end_dt`. -/
def countOwnCommentsInRange (username : String) (start_dt end_dt : Int) :
    List Comment → Nat
  | [] => 0
  | c :: cs =>
    let rest := countOwnCommentsInRange username start_dt end_dt cs
    match c.user with
    | some login =>
      if login = username ∧ start_dt ≤ c.created_at ∧ c.created_at ≤ end_dt
      then rest + 1 else rest
    | none => rest

/-- `count_comments_for_pr(pr, username, start_dt, end_dt)` from
`reviews_report.py`: inline and issue comments by `username` within the
range. -/
def count_comments_for_pr (pr : PullRequest) (username : String)
    (start_dt end_dt : Int) : Nat :=
  countOwnCommentsInRange username start_dt end_dt pr.review_comments
    + countOwnCommentsInRange username start_dt end_dt pr.issue_comments

/-- The tuple `(total, approvals, changes, deltas)` returned by
`process_review_events`. -/
structure RevCounts where
  total : Nat
  approvals : Nat
  changes : Nat
  deltas : List ℚ
deriving Repr, DecidableEq

/-- The review loop of `process_review_events`: skip reviews lacking a user or
a `submitted_at`; skip reviews not by `username` or submitted outside
`[start_dt, end_dt]`; otherwise count the review, classify its state after
`upper()`, and append `(submitted_at - pr.created_at)` in hours. -/
def processReviewLoop (username : String) (created_at : Int)
    (start_dt end_dt : Int) : List Review → RevCounts
  | [] => ⟨0, 0, 0, []⟩
  | r :: rs =>
    let rest := processReviewLoop username created_at start_dt end_dt rs
    match r.user, r.submitted_at with
    | some login, some sub =>
      if login = username ∧ start_dt ≤ sub ∧ sub ≤ end_dt then
        let st := pyUpper (r.state.getD "")
        { total := rest.total + 1
          approvals := rest.approvals + (if st = "APPROVED" then 1 else 0)
          changes := rest.changes + (if st = "CHANGES_REQUESTED" then 1 else 0)
          deltas := hoursBetween created_at sub :: rest.deltas }
      else rest
    | _, _ => rest

/-- `process_review_events(pr, username, start_dt, end_dt)` from
`reviews_report.py`. -/
def process_review_events (pr : PullRequest) (username : String)
    (start_dt end_dt : Int) : RevCounts :=
  processReviewLoop username pr.created_at start_dt end_dt pr.reviews

/-- The mutable accumulators of `aggregate_review_stats`. -/
structure RevAcc where
  total_reviews : Nat
  approvals : Nat
  change_requests : Nat
  comment_count : Nat
  pr_review_deltas : List ℚ
deriving Repr, DecidableEq

/-- The per-PR loop body of `aggregate_review_stats`, folded over the fetched
records in order. -/
def aggregateRevLoop (username : String) (start_dt end_dt : Int)
    (acc : RevAcc) : List PullRequest → RevAcc
  | [] => acc
  | pr :: rest =>
    let rc := process_review_events pr username start_dt end_dt
    aggregateRevLoop username start_dt end_dt
      { total_reviews := acc.total_reviews + rc.total
        approvals := acc.approvals + rc.approvals
        change_requests := acc.change_requests + rc.changes
        comment_count :=
          acc.comment_count + count_comments_for_pr pr username start_dt end_dt
        pr_review_deltas := acc.pr_review_deltas ++ rc.deltas }
      rest

/-- The dictionary returned by `aggregate_review_stats`. -/
structure RevStats where
  start_dt : Int
  end_dt : Int
  total_reviews : Nat
  approvals : Nat
  change_requests : Nat
  comment_count : Nat
  avg_review_hours : Option ℚ
deriving Repr, DecidableEq

/-- `aggregate_review_stats(issues, g, username, start_dt, end_dt)` from
`reviews_report.py`, receiving the resolved pull-request records directly. -/
def aggregate_review_stats (prs : List PullRequest) (username : String)
    (start_dt end_dt : Int) : RevStats :=
  let acc := aggregateRevLoop username start_dt end_dt ⟨0, 0, 0, 0, []⟩ prs
  { start_dt := start_dt
    end_dt := end_dt
    total_reviews := acc.total_reviews
    approvals := acc.approvals
    change_requests := acc.change_requests
    comment_count := acc.comment_count
    avg_review_hours := optionalAvg acc.pr_review_deltas }

/-- The `lines` list built by `format_plain_report` in `reviews_report.py`. -/
def report_lines (stats : RevStats) : List String :=
  ["Reviews report",
   "Date range: " ++ (isoDate stats.start_dt ++ (" .. " ++ isoDate stats.end_dt)),
   "Total review events: " ++ toString stats.total_reviews,
   "Approvals: " ++ toString stats.approvals,
   "Change requests: " ++ toString stats.change_requests,
   "Comments made on PRs: " ++ toString stats.comment_count]
  ++ [match stats.avg_review_hours with
      | some q =>
        "Average hours between PR creation and your review: "
          ++ (fmt2 q ++ " hours")
      | none => "No reviews found in the date range."]

/-- `format_plain_report(stats)` from `reviews_report.py`. -/
def format_plain_report (stats : RevStats) : String :=
  String.intercalate "\n" (report_lines stats)

end ReviewsReport

namespace GhUtils

/-- Abort reasons of the report scripts: `EnvironmentError` from
`get_github_client`, `ValueError` from the strict `parse_date_range`. -/
inductive RunAbort
  | envError
  | valueError
deriving Repr, DecidableEq

/-- Network requests issued by `main` before aggregation starts:
`g.get_user().login` inside `get_authenticated_username`, then the
`search_issues` query of the fetcher. -/
inductive NetCall
  | getUser
  | searchIssues
deriving Repr, DecidableEq

/-- `get_github_client()` from `src/gh_utils.py`, called by both report
`main`s with no explicit token: reads `GITHUB_TOKEN` from the environment and
raises `EnvironmentError` when it is absent or empty.  Constructing the
client object performs no network request. -/
def get_github_client (env_token : Option String) : Except RunAbort Unit :=
  if strTruthy env_token then .ok () else .error .envError

/-- `parse_date_range(start, end)` from `src/gh_utils.py` (the strict
variant imported by both report scripts): raises `ValueError` when `start` is
absent or empty; `end` defaults to now.  `dateutil.parser.parse` is an
external library, passed in as the oracle `parse`. -/
def parse_date_range (parse : String → Int) (start end_ : Option String)
    (now : Int) : Except RunAbort (Int × Int) :=
  match start with
  | none => .error .valueError
  | some s =>
    if s = "" then .error .valueError
    else
      .ok (parse s,
        match end_ with
        | some e => if e = "" then now else parse e
        | none => now)

/-- The configuration phase of `main` in `prs_report.py` and
`reviews_report.py` (both have the same shape): `get_github_client()` first
(no network), then `get_authenticated_username(g)` (one network request),
then `parse_date_range(start, end)`, then the `search_issues` fetch.  Returns
the network calls issued before the run either aborts (`some` abort) or
reaches aggregation (`none`). -/
def mainNetTrace (env_token : Option String) (parse : String → Int)
    (start end_ : Option String) (now : Int) :
    List NetCall × Option RunAbort :=
  match get_github_client env_token with
  | .error a => ([], some a)
  | .ok _ =>
    match parse_date_range parse start end_ now with
    | .error a => ([NetCall.getUser], some a)
    | .ok _ => ([NetCall.getUser, NetCall.searchIssues], none)

end GhUtils

namespace ScriptsGhUtils

/-- A timezone-aware civil instant (all values UTC in this model), for the
calendar-sensitive defaulting of `scripts/gh_utils.py`. -/
structure CivilDateTime where
  year : Int
  month : Nat
  day : Nat
  hour : Nat
  minute : Nat
  second : Nat
deriving Repr, DecidableEq

/-- Gregorian leap-year predicate. -/
def isLeapYear (y : Int) : Bool :=
  (y % 4 = 0 ∧ y % 100 ≠ 0) ∨ y % 400 = 0

/-- Days in a month of a given year. -/
def daysInMonth (y : Int) (m : Nat) : Nat :=
  if m = 2 then (if isLeapYear y then 29 else 28)
  else if m = 4 ∨ m = 6 ∨ m = 9 ∨ m = 11 then 30
  else 31

/-- `t - relativedelta(years=1)`: decrement the year and clamp the day to the
target month's length (Feb 29 becomes Feb 28). -/
def subOneYear (t : CivilDateTime) : CivilDateTime :=
  { t with
    year := t.year - 1
    day := min t.day (daysInMonth (t.year - 1) t.month) }

/-- `parse_date_range(start, end)` from `src/scripts/gh_utils.py` (the
defaulting variant used by `weekly_report.py`): `start` defaults to
`now - relativedelta(years=1)`, `end` defaults to `now`; parsed values are
normalised to UTC (all values in this model are UTC already).
`dateutil.parser.parse` is the oracle `parse`. -/
def parse_date_range (parse : String → CivilDateTime)
    (start end_ : Option String) (now : CivilDateTime) :
    CivilDateTime × CivilDateTime :=
  let start_dt :=
    match start with
    | some s => if s = "" then subOneYear now else parse s
    | none => subOneYear now
  let end_dt :=
    match end_ with
    | some e => if e = "" then now else parse e
    | none => now
  (start_dt, end_dt)

end ScriptsGhUtils

/-- Outcome of a `requests.post` call: an HTTP status code, or a raised
network exception (`ConnectionError`, `Timeout`, ...). -/
inductive HttpResult
  | status (code : Int)
  | netFailure
deriving Repr, DecidableEq

namespace Publishers

/-- `post_to_notion(summary, notion_token, notion_page_id)` from
`prs_report.py` (the one in `reviews_report.py` is identical in structure):
returns `False` when either credential is falsy; otherwise performs
`requests.post` with NO surrounding try/except, so a raised network exception
propagates to the caller (`Except.error`), and a status code yields
`200 <= status_code < 300`. -/
def post_to_notion (notion_token notion_page_id : Option String)
    (result : HttpResult) : Except Unit Bool :=
  if ¬ (strTruthy notion_token ∧ strTruthy notion_page_id) then .ok false
  else
    match result with
    | .status c => .ok (decide (200 ≤ c ∧ c < 300))
    | .netFailure => .error ()

/-- `post_to_slack(summary, slack_webhook)` from `prs_report.py` and
`reviews_report.py`: returns `False` when the webhook is falsy; the
`requests.post` call is wrapped in `try ... except Exception: return False`,
so a network failure returns `False` instead of raising. -/
def post_to_slack (slack_webhook : Option String)
    (result : HttpResult) : Except Unit Bool :=
  if ¬ strTruthy slack_webhook then .ok false
  else
    match result with
    | .status c => .ok (decide (200 ≤ c ∧ c < 300))
    | .netFailure => .ok false

end Publishers

/-- Specification-side predicate (authored-PR variant): the event's actor is
present and distinct from the acting `username`. -/
def specOtherComment (username : String) (c : Comment) : Bool :=
  match c.user with
  | some login => login ≠ username
  | none => false

/-- Specification-side predicate (reviewed-PR variant): the comment's actor
equals the acting `username` and its creation instant lies in the range. -/
def specOwnCommentInRange (username : String) (start_dt end_dt : Int)
    (c : Comment) : Bool :=
  match c.user with
  | some login =>
    login = username ∧ start_dt ≤ c.created_at ∧ c.created_at ≤ end_dt
  | none => false

/-- Specification side (approval-latency samples): one sample
`(submitted_at - created_at)` in hours for each review with state `APPROVED`
(after uppercasing), an actor distinct from `username`, and a present
submission time. -/
def specApprovalSample (username : String) (created_at : Int) (r : Review) :
    Option ℚ :=
  match r.user, r.submitted_at with
  | some login, some sub =>
    if login ≠ username ∧ pyUpper (r.state.getD "") = "APPROVED"
    then some (hoursBetween created_at sub) else none
  | _, _ => none

/-- Specification side (change-request count): a review with state
`CHANGES_REQUESTED` (after uppercasing) whose actor is present and distinct
from `username`. -/
def specChangeRequest (username : String) (r : Review) : Bool :=
  match r.user with
  | some login =>
    login ≠ username ∧ pyUpper (r.state.getD "") = "CHANGES_REQUESTED"
  | none => false

/-- Specification side (reviewed-PR variant): a review event is counted iff
its actor equals the acting `username` and its submission instant lies within
`[start_dt, end_dt]` (both of which presuppose the fields are present). -/
def specCounted (username : String) (start_dt end_dt : Int) (r : Review) :
    Bool :=
  match r.user, r.submitted_at with
  | some login, some sub => login = username ∧ start_dt ≤ sub ∧ sub ≤ end_dt
  | _, _ => false

/-- The review's state is `APPROVED` after uppercasing. -/
def specApprovedState (r : Review) : Bool :=
  pyUpper (r.state.getD "") = "APPROVED"

/-- The review's state is `CHANGES_REQUESTED` after uppercasing. -/
def specChangesState (r : Review) : Bool :=
  pyUpper (r.state.getD "") = "CHANGES_REQUESTED"

namespace PrsReport

/-- All approval-latency samples collected across `prs`, in traversal order
(the backing list of `avg_hours_to_approval`). -/
def collectedApprovalHours (prs : List PullRequest) (username : String) :
    List ℚ :=
  (prs.map (fun pr => (process_pr_timings pr username).1)).flatten

/-- All merge-latency samples collected across `prs` (at most one per PR,
the backing list of `avg_hours_to_merge`). -/
def collectedMergedHours (prs : List PullRequest) (username : String) :
    List ℚ :=
  prs.filterMap (fun pr => (process_pr_timings pr username).2)

end PrsReport

namespace ReviewsReport

/-- All combined review-latency samples collected across `prs`
(the backing list of `avg_review_hours`). -/
def collectedReviewDeltas (prs : List PullRequest) (username : String)
    (start_dt end_dt : Int) : List ℚ :=
  (prs.map (fun pr => (process_review_events pr username start_dt end_dt).deltas)).flatten

end ReviewsReport

/-- Fixture: a PR created at epoch 0 whose only review is an approval by
another actor submitted 5 hours (18000 s) later. -/
def prOneApproval : PullRequest :=
  { created_at := 0
    merged_at := none
    reviews := [{ user := some "alice", state := some "APPROVED",
                  submitted_at := some 18000 }]
    review_comments := []
    issue_comments := [] }

/-- Fixture: a PR created at epoch 0 and merged 10 hours later. -/
def prMergedTen : PullRequest :=
  { created_at := 0, merged_at := some 36000, reviews := []
    review_comments := [], issue_comments := [] }

/-- Fixture: a PR created at epoch 0 and merged 30 hours later. -/
def prMergedThirty : PullRequest :=
  { created_at := 0, merged_at := some 108000, reviews := []
    review_comments := [], issue_comments := [] }

/-- Fixture: a PR whose only review is by the acting user `bob` but submitted
at instant 999999, far outside the range `[0, 3600]` used in the theorems. -/
def prOutOfRangeReview : PullRequest :=
  { created_at := 0
    merged_at := none
    reviews := [{ user := some "bob", state := some "APPROVED",
                  submitted_at := some 999999 }]
    review_comments := []
    issue_comments := [] }

/-- Fixture: the acting user `bob` requests changes on their own PR. -/
def prSelfChangeRequest : PullRequest :=
  { created_at := 0
    merged_at := none
    reviews := [{ user := some "bob", state := some "CHANGES_REQUESTED",
                  submitted_at := some 100 }]
    review_comments := []
    issue_comments := [] }

/-- Fixture: a single issue comment by another actor at instant 999999. -/
def prLateOtherComment : PullRequest :=
  { created_at := 0, merged_at := none, reviews := []
    review_comments := []
    issue_comments := [{ user := some "alice", created_at := 999999 }] }

/-- Fixture: a single issue comment by the acting user `bob` at 999999. -/
def prLateOwnComment : PullRequest :=
  { created_at := 0, merged_at := none, reviews := []
    review_comments := []
    issue_comments := [{ user := some "bob", created_at := 999999 }] }

/-! ## Helper lemmas -/

/-- Two strings whose first `k` characters differ are different. -/
lemma take_ne_string_ne (k : Nat) {s t : String}
    (h : s.data.take k ≠ t.data.take k) : s ≠ t := by
  intro he
  exact h (by rw [he])

/-- Concatenations are different when the left parts pin down `k` differing
leading characters. -/
lemma append_ne_append (k : Nat) {a x b y : String}
    (ha : k ≤ a.data.length) (hb : k ≤ b.data.length)
    (h : a.data.take k ≠ b.data.take k) : a ++ x ≠ b ++ y := by
  intro he
  apply h
  have hd : (a ++ x).data = (b ++ y).data := by rw [he]
  rw [String.data_append, String.data_append] at hd
  calc a.data.take k = (a.data ++ x.data).take k :=
        (List.take_append_of_le_length ha).symm
    _ = (b.data ++ y.data).take k := by rw [hd]
    _ = b.data.take k := List.take_append_of_le_length hb

/-- A concatenation differs from a plain string pinned down to `k` differing
leading characters. -/
lemma append_ne_plain (k : Nat) {a x b : String}
    (ha : k ≤ a.data.length)
    (h : a.data.take k ≠ b.data.take k) : a ++ x ≠ b := by
  intro he
  apply h
  have hd : (a ++ x).data = b.data := by rw [he]
  rw [String.data_append] at hd
  calc a.data.take k = (a.data ++ x.data).take k :=
        (List.take_append_of_le_length ha).symm
    _ = b.data.take k := by rw [hd]

/-- `countOtherComments` counts exactly the comments whose actor is present
and differs from the username. -/
lemma countOtherComments_eq_filter (u : String) (cs : List Comment) :
    PrsReport.countOtherComments u cs
      = (cs.filter (specOtherComment u)).length := by
  induction cs with
  | nil => rfl
  | cons c cs ih =>
    cases hu : c.user with
    | none =>
      simp [PrsReport.countOtherComments, List.filter_cons, specOtherComment,
        hu, ih]
    | some login =>
      by_cases h : login = u <;>
        simp [PrsReport.countOtherComments, List.filter_cons, specOtherComment,
          hu, h, ih]

/-- `countOwnCommentsInRange` counts exactly the comments by the username
created within the range. -/
lemma countOwnCommentsInRange_eq_filter (u : String) (s e : Int)
    (cs : List Comment) :
    ReviewsReport.countOwnCommentsInRange u s e cs
      = (cs.filter (specOwnCommentInRange u s e)).length := by
  induction cs with
  | nil => rfl
  | cons c cs ih =>
    cases hu : c.user with
    | none =>
      simp [ReviewsReport.countOwnCommentsInRange, List.filter_cons,
        specOwnCommentInRange, hu, ih]
    | some login =>
      by_cases h : login = u ∧ s ≤ c.created_at ∧ c.created_at ≤ e <;>
        simp [ReviewsReport.countOwnCommentsInRange, List.filter_cons,
          specOwnCommentInRange, hu, h, ih]

/-- The approval loop of `process_pr_timings` collects exactly the samples
described by `specApprovalSample`, in order. -/
lemma approvalDeltasLoop_eq_filterMap (u : String) (c : Int)
    (rs : List Review) :
    PrsReport.approvalDeltasLoop u c rs
      = rs.filterMap (specApprovalSample u c) := by
  induction rs with
  | nil => rfl
  | cons r rs ih =>
    cases hu : r.user with
    | none =>
      simp [PrsReport.approvalDeltasLoop, List.filterMap_cons,
        specApprovalSample, hu, ih]
    | some login =>
      cases hs : r.submitted_at with
      | none =>
        by_cases h1 : login = u <;>
          by_cases h2 : pyUpper (r.state.getD "") = "APPROVED" <;>
            simp [PrsReport.approvalDeltasLoop, List.filterMap_cons,
              specApprovalSample, hu, hs, h1, h2, ih]
      | some sub =>
        by_cases h1 : login = u <;>
          by_cases h2 : pyUpper (r.state.getD "") = "APPROVED" <;>
            simp [PrsReport.approvalDeltasLoop, List.filterMap_cons,
              specApprovalSample, hu, hs, h1, h2, ih]

/-- An uppercased state equal to `CHANGES_REQUESTED` is in particular
non-empty, so the truthiness test in the source's condition is redundant. -/
lemma state_nonempty_of_changes {st : String}
    (h : pyUpper st = "CHANGES_REQUESTED") : st ≠ "" := by
  intro he
  rw [he] at h
  exact absurd h (by decide)

/-- The change-request loop of `aggregate_pr_stats` counts exactly the
reviews described by `specChangeRequest`. -/
lemma changeRequestsLoop_eq_filter (u : String) (rs : List Review) :
    PrsReport.changeRequestsLoop u rs
      = (rs.filter (specChangeRequest u)).length := by
  induction rs with
  | nil => rfl
  | cons r rs ih =>
    cases hst : r.state with
    | none =>
      cases hu : r.user with
      | none =>
        simp [PrsReport.changeRequestsLoop, List.filter_cons,
          specChangeRequest, hst, hu, ih]
      | some login =>
        simp only [PrsReport.changeRequestsLoop, List.filter_cons,
          specChangeRequest, hst, hu, ih, Option.getD]
        have : ¬ (login ≠ u ∧ pyUpper "" = "CHANGES_REQUESTED") := by
          rintro ⟨-, h2⟩
          exact absurd h2 (by decide)
        simp [this]
    | some st =>
      cases hu : r.user with
      | none =>
        simp [PrsReport.changeRequestsLoop, List.filter_cons,
          specChangeRequest, hst, hu, ih]
      | some login =>
        by_cases h1 : login = u <;> by_cases h2 : pyUpper st = "CHANGES_REQUESTED"
        · simp [PrsReport.changeRequestsLoop, List.filter_cons,
            specChangeRequest, hst, hu, h1, h2, ih]
        · simp [PrsReport.changeRequestsLoop, List.filter_cons,
            specChangeRequest, hst, hu, h1, h2, ih]
        · have hne := state_nonempty_of_changes h2
          simp [PrsReport.changeRequestsLoop, List.filter_cons,
            specChangeRequest, hst, hu, h1, h2, hne, ih]
        · simp [PrsReport.changeRequestsLoop, List.filter_cons,
            specChangeRequest, hst, hu, h1, h2, ih]

/-- The review loop of `process_review_events` realises exactly the filters
and samples described by `specCounted` and the state classifiers. -/
lemma processReviewLoop_eq_filter (u : String) (c s e : Int)
    (rs : List Review) :
    ReviewsReport.processReviewLoop u c s e rs =
      { total := (rs.filter (specCounted u s e)).length
        approvals := (rs.filter
          (fun r => specCounted u s e r && specApprovedState r)).length
        changes := (rs.filter
          (fun r => specCounted u s e r && specChangesState r)).length
        deltas := (rs.filter (specCounted u s e)).map
          (fun r => hoursBetween c (r.submitted_at.getD 0)) } := by
  induction rs with
  | nil => rfl
  | cons r rs ih =>
    cases hu : r.user with
    | none =>
      simp [ReviewsReport.processReviewLoop, List.filter_cons, specCounted,
        hu, ih]
    | some login =>
      cases hs : r.submitted_at with
      | none =>
        simp [ReviewsReport.processReviewLoop, List.filter_cons, specCounted,
          hu, hs, ih]
      | some sub =>
        by_cases h1 : login = u ∧ s ≤ sub ∧ sub ≤ e
        · by_cases h2 : pyUpper (r.state.getD "") = "APPROVED" <;>
            by_cases h3 : pyUpper (r.state.getD "") = "CHANGES_REQUESTED" <;>
              simp [ReviewsReport.processReviewLoop, List.filter_cons,
                specCounted, specApprovedState, specChangesState,
                hu, hs, h1, h2, h3, ih]
        · simp [ReviewsReport.processReviewLoop, List.filter_cons,
            specCounted, specApprovedState, specChangesState, hu, hs, h1, ih]

/-- Closed form of the `aggregate_pr_stats` accumulation loop. -/
lemma aggregatePrLoop_closed (u : String) (prs : List PullRequest) :
    ∀ acc : PrsReport.PrAcc,
      PrsReport.aggregatePrLoop u acc prs =
        { prs_count := acc.prs_count + prs.length
          change_requests_received := acc.change_requests_received
            + (prs.map (fun pr => PrsReport.changeRequestsLoop u pr.reviews)).sum
          approval_hours := acc.approval_hours
            ++ PrsReport.collectedApprovalHours prs u
          merged_hours := acc.merged_hours
            ++ PrsReport.collectedMergedHours prs u
          comments_received := acc.comments_received
            + (prs.map (fun pr => PrsReport.count_comments_received pr u)).sum } := by
  induction prs with
  | nil =>
    intro acc
    simp [PrsReport.aggregatePrLoop, PrsReport.collectedApprovalHours,
      PrsReport.collectedMergedHours]
  | cons pr rest ih =>
    intro acc
    rw [PrsReport.aggregatePrLoop, ih]
    cases hm : (PrsReport.process_pr_timings pr u).2 with
    | none =>
      simp [PrsReport.collectedApprovalHours, PrsReport.collectedMergedHours,
        List.filterMap_cons, hm, List.append_assoc, Nat.add_assoc] <;> omega
    | some m =>
      simp [PrsReport.collectedApprovalHours, PrsReport.collectedMergedHours,
        List.filterMap_cons, hm, List.append_assoc, Nat.add_assoc] <;> omega

/-- Closed form of the `aggregate_review_stats` accumulation loop. -/
lemma aggregateRevLoop_closed (u : String) (s e : Int)
    (prs : List PullRequest) :
    ∀ acc : ReviewsReport.RevAcc,
      ReviewsReport.aggregateRevLoop u s e acc prs =
        { total_reviews := acc.total_reviews
            + (prs.map (fun pr =>
                (ReviewsReport.process_review_events pr u s e).total)).sum
          approvals := acc.approvals
            + (prs.map (fun pr =>
                (ReviewsReport.process_review_events pr u s e).approvals)).sum
          change_requests := acc.change_requests
            + (prs.map (fun pr =>
                (ReviewsReport.process_review_events pr u s e).changes)).sum
          comment_count := acc.comment_count
            + (prs.map (fun pr =>
                ReviewsReport.count_comments_for_pr pr u s e)).sum
          pr_review_deltas := acc.pr_review_deltas
            ++ ReviewsReport.collectedReviewDeltas prs u s e } := by
  induction prs with
  | nil =>
    intro acc
    simp [ReviewsReport.aggregateRevLoop, ReviewsReport.collectedReviewDeltas]
  | cons pr rest ih =>
    intro acc
    rw [ReviewsReport.aggregateRevLoop, ih]
    simp [ReviewsReport.collectedReviewDeltas, List.append_assoc,
      Nat.add_assoc]

/-- Counting elements satisfying `p` together with one of two mutually
exclusive refinements never exceeds the count of `p` alone. -/
lemma length_filter_and_disjoint {α : Type} (p q q' : α → Bool)
    (hd : ∀ a, ¬(q a = true ∧ q' a = true)) (l : List α) :
    (l.filter (fun a => p a && q a)).length
      + (l.filter (fun a => p a && q' a)).length
      ≤ (l.filter p).length := by
  induction l with
  | nil => simp
  | cons a l ih =>
    have hda := hd a
    simp only [List.filter_cons]
    cases hp : p a <;> cases hq : q a <;> cases hq' : q' a <;>
      simp [hp, hq, hq'] <;>
        first
        | omega
        | exact absurd ⟨hq, hq'⟩ hda

/-- Reviews whose user or submission time is absent are invisible to the
review loop: filtering them away first changes nothing. -/
lemma processReviewLoop_drop_malformed (u : String) (c s e : Int)
    (rs : List Review) :
    ReviewsReport.processReviewLoop u c s e
        (rs.filter (fun r => r.user.isSome && r.submitted_at.isSome))
      = ReviewsReport.processReviewLoop u c s e rs := by
  induction rs with
  | nil => rfl
  | cons r rs ih =>
    cases hu : r.user with
    | none =>
      simp [List.filter_cons, hu, ReviewsReport.processReviewLoop, ih]
    | some login =>
      cases hs : r.submitted_at with
      | none =>
        simp [List.filter_cons, hu, hs, ReviewsReport.processReviewLoop, ih]
      | some sub =>
        simp [List.filter_cons, hu, hs, ReviewsReport.processReviewLoop, ih]

/-- With no approval samples, the PR formatter shows the approval fallback
line. -/
lemma pr_fallback_approval_mem (st : PrsReport.PrStats)
    (h : st.avg_hours_to_approval = none) :
    "No approvals found in range." ∈ PrsReport.report_lines st := by
  simp [PrsReport.report_lines, h]

/-- With no approval samples, no numeric approval line appears in the PR
report. -/
lemma pr_no_numeric_approval (st : PrsReport.PrStats)
    (h : st.avg_hours_to_approval = none) (q : ℚ) :
    ("Average hours until approval: " ++ (fmt2 q ++ " hours"))
      ∉ PrsReport.report_lines st := by
  cases hm : st.avg_hours_to_merge with
  | none =>
    simp only [PrsReport.report_lines, h, hm, List.cons_append,
      List.nil_append, List.mem_cons, List.not_mem_nil, or_false, not_or]
    refine ⟨?_, ?_, ?_, ?_, ?_, ?_, ?_⟩ <;>
      first
      | exact append_ne_plain 1 (by decide) (by decide)
      | exact append_ne_append 1 (by decide) (by decide) (by decide)
      | exact append_ne_append 21 (by decide) (by decide) (by decide)
  | some m =>
    simp only [PrsReport.report_lines, h, hm, List.cons_append,
      List.nil_append, List.mem_cons, List.not_mem_nil, or_false, not_or]
    refine ⟨?_, ?_, ?_, ?_, ?_, ?_, ?_⟩ <;>
      first
      | exact append_ne_plain 1 (by decide) (by decide)
      | exact append_ne_append 1 (by decide) (by decide) (by decide)
      | exact append_ne_append 21 (by decide) (by decide) (by decide)

/-- With no merge samples, the PR formatter shows the merge fallback line. -/
lemma pr_fallback_merge_mem (st : PrsReport.PrStats)
    (h : st.avg_hours_to_merge = none) :
    "No merges found in range." ∈ PrsReport.report_lines st := by
  simp [PrsReport.report_lines, h]

/-- With no merge samples, no numeric merge line appears in the PR report. -/
lemma pr_no_numeric_merge (st : PrsReport.PrStats)
    (h : st.avg_hours_to_merge = none) (q : ℚ) :
    ("Average hours until merge: " ++ (fmt2 q ++ " hours"))
      ∉ PrsReport.report_lines st := by
  cases ha : st.avg_hours_to_approval with
  | none =>
    simp only [PrsReport.report_lines, h, ha, List.cons_append,
      List.nil_append, List.mem_cons, List.not_mem_nil, or_false, not_or]
    refine ⟨?_, ?_, ?_, ?_, ?_, ?_, ?_⟩ <;>
      first
      | exact append_ne_plain 1 (by decide) (by decide)
      | exact append_ne_append 1 (by decide) (by decide) (by decide)
      | exact append_ne_append 21 (by decide) (by decide) (by decide)
  | some m =>
    simp only [PrsReport.report_lines, h, ha, List.cons_append,
      List.nil_append, List.mem_cons, List.not_mem_nil, or_false, not_or]
    refine ⟨?_, ?_, ?_, ?_, ?_, ?_, ?_⟩ <;>
      first
      | exact append_ne_plain 1 (by decide) (by decide)
      | exact append_ne_append 1 (by decide) (by decide) (by decide)
      | exact append_ne_append 21 (by decide) (by decide) (by decide)

/-- With no review samples, the reviews formatter shows its fallback line. -/
lemma rev_fallback_mem (st : ReviewsReport.RevStats)
    (h : st.avg_review_hours = none) :
    "No reviews found in the date range." ∈ ReviewsReport.report_lines st := by
  simp [ReviewsReport.report_lines, h]

/-- With no review samples, no numeric latency line appears in the reviews
report. -/
lemma rev_no_numeric (st : ReviewsReport.RevStats)
    (h : st.avg_review_hours = none) (q : ℚ) :
    ("Average hours between PR creation and your review: "
        ++ (fmt2 q ++ " hours"))
      ∉ ReviewsReport.report_lines st := by
  simp only [ReviewsReport.report_lines, h, List.cons_append,
    List.nil_append, List.mem_cons, List.not_mem_nil, or_false, not_or]
  refine ⟨?_, ?_, ?_, ?_, ?_, ?_, ?_⟩ <;>
    first
    | exact append_ne_plain 1 (by decide) (by decide)
    | exact append_ne_append 1 (by decide) (by decide) (by decide)
    | exact append_ne_append 2 (by decide) (by decide) (by decide)

/-- `fmt2` renders the exact mean 5 as `5.00`. -/
lemma fmt2_five : fmt2 5 = "5.00" := by
  have h1 : roundHalfEven ((5 : ℚ) * 100) = 500 := by
    norm_num [roundHalfEven]
  simp only [fmt2, h1]
  decide

/-- `fmt2` renders the exact mean 20 as `20.00`. -/
lemma fmt2_twenty : fmt2 20 = "20.00" := by
  have h1 : roundHalfEven ((20 : ℚ) * 100) = 2000 := by
    norm_num [roundHalfEven]
  simp only [fmt2, h1]
  decide

/-- The aggregate of the one-approval fixture has approval mean exactly 5. -/
lemma aggregate_prOneApproval_avg :
    (PrsReport.aggregate_pr_stats [prOneApproval] "bob" 0 604800).avg_hours_to_approval
      = some 5 := by
  have hupper : pyUpper "APPROVED" = "APPROVED" := by decide
  have h5 : hoursBetween 0 18000 = 5 := by norm_num [hoursBetween]
  simp [PrsReport.aggregate_pr_stats, PrsReport.aggregatePrLoop,
    PrsReport.process_pr_timings, PrsReport.approvalDeltasLoop, prOneApproval,
    hupper, h5, optionalAvg]

/-- The aggregate of the 10-hour and 30-hour merge fixtures has merge mean
exactly 20. -/
lemma aggregate_merged_avg :
    (PrsReport.aggregate_pr_stats [prMergedTen, prMergedThirty] "bob" 0
        604800).avg_hours_to_merge = some 20 := by
  have h10 : hoursBetween 0 36000 = 10 := by norm_num [hoursBetween]
  have h30 : hoursBetween 0 108000 = 30 := by norm_num [hoursBetween]
  have hs : ((10 : ℚ) + 30) / 2 = 20 := by norm_num
  simp [PrsReport.aggregate_pr_stats, PrsReport.aggregatePrLoop,
    PrsReport.process_pr_timings, PrsReport.approvalDeltasLoop, prMergedTen,
    prMergedThirty, h10, h30, optionalAvg]
  norm_num

/-- C1: for every `AggregateStats` whose backing timing-sample list for a
metric is empty, the derived mean for that metric is `none`, and the
formatter emits that metric's distinct fallback line instead of a numeric
line; a mean is only ever computed as `sum / length` of a non-empty sample
list, so no division by zero occurs. -/
theorem c1_empty_samples_mean_absent_and_fallback :
    (∀ xs : List ℚ,
        (optionalAvg xs = none ↔ xs = []) ∧
        ∀ q : ℚ, optionalAvg xs = some q →
          xs ≠ [] ∧ q = xs.sum / (xs.length : ℚ)) ∧
    (∀ (prs : List PullRequest) (u : String) (s e : Int),
        ((PrsReport.aggregate_pr_stats prs u s e).avg_hours_to_approval = none
            ↔ PrsReport.collectedApprovalHours prs u = []) ∧
        ((PrsReport.aggregate_pr_stats prs u s e).avg_hours_to_merge = none
            ↔ PrsReport.collectedMergedHours prs u = []) ∧
        ((ReviewsReport.aggregate_review_stats prs u s e).avg_review_hours = none
            ↔ ReviewsReport.collectedReviewDeltas prs u s e = [])) ∧
    (∀ st : PrsReport.PrStats, st.avg_hours_to_approval = none →
        "No approvals found in range." ∈ PrsReport.report_lines st ∧
        ∀ q : ℚ, ("Average hours until approval: " ++ (fmt2 q ++ " hours"))
          ∉ PrsReport.report_lines st) ∧
    (∀ st : PrsReport.PrStats, st.avg_hours_to_merge = none →
        "No merges found in range." ∈ PrsReport.report_lines st ∧
        ∀ q : ℚ, ("Average hours until merge: " ++ (fmt2 q ++ " hours"))
          ∉ PrsReport.report_lines st) ∧
    (∀ st : ReviewsReport.RevStats, st.avg_review_hours = none →
        "No reviews found in the date range." ∈ ReviewsReport.report_lines st ∧
        ∀ q : ℚ, ("Average hours between PR creation and your review: "
            ++ (fmt2 q ++ " hours")) ∉ ReviewsReport.report_lines st) := by
  refine ⟨?_, ?_, ?_, ?_, ?_⟩
  · intro xs
    constructor
    · simp [optionalAvg, List.isEmpty_iff]
    · intro q hq
      rw [optionalAvg] at hq
      by_cases hxs : xs.isEmpty
      · simp [hxs] at hq
      · refine ⟨by simpa [List.isEmpty_iff] using hxs, ?_⟩
        simp [hxs] at hq
        exact hq.symm
  · intro prs u s e
    refine ⟨?_, ?_, ?_⟩
    · simp [PrsReport.aggregate_pr_stats, aggregatePrLoop_closed, optionalAvg,
        List.isEmpty_iff]
    · simp [PrsReport.aggregate_pr_stats, aggregatePrLoop_closed, optionalAvg,
        List.isEmpty_iff]
    · simp [ReviewsReport.aggregate_review_stats, aggregateRevLoop_closed,
        optionalAvg, List.isEmpty_iff]
  · intro st h
    exact ⟨pr_fallback_approval_mem st h, fun q => pr_no_numeric_approval st h q⟩
  · intro st h
    exact ⟨pr_fallback_merge_mem st h, fun q => pr_no_numeric_merge st h q⟩
  · intro st h
    exact ⟨rev_fallback_mem st h, fun q => rev_no_numeric st h q⟩

/-- Witness for C1 at concrete empty-sample stats records. -/
theorem c1_witness :
    ("No approvals found in range."
        ∈ PrsReport.report_lines ⟨0, 0, 0, 0, none, none, 0⟩) ∧
    ("No merges found in range."
        ∈ PrsReport.report_lines ⟨0, 0, 0, 0, none, none, 0⟩) ∧
    ("No reviews found in the date range."
        ∈ ReviewsReport.report_lines ⟨0, 0, 0, 0, 0, 0, none⟩) := by
  have h := c1_empty_samples_mean_absent_and_fallback
  exact ⟨(h.2.2.1 ⟨0, 0, 0, 0, none, none, 0⟩ rfl).1,
    (h.2.2.2.1 ⟨0, 0, 0, 0, none, none, 0⟩ rfl).1,
    (h.2.2.2.2 ⟨0, 0, 0, 0, 0, 0, none⟩ rfl).1⟩

/-- C2: in the authored-PR aggregator the approval-latency sample list
contains exactly one entry `(submitted_at - created_at)` in hours for each
review with state `APPROVED`, an actor distinct from the username, and a
present `submitted_at`; the reported average is the arithmetic mean of these
samples, and a single such approval submitted 5 hours after PR creation
yields a mean of exactly `5.00`. -/
theorem c2_approval_latency_samples :
    (∀ (pr : PullRequest) (u : String),
        (PrsReport.process_pr_timings pr u).1
          = pr.reviews.filterMap (specApprovalSample u pr.created_at)) ∧
    (∀ (prs : List PullRequest) (u : String) (s e : Int),
        (PrsReport.aggregate_pr_stats prs u s e).avg_hours_to_approval
          = optionalAvg (PrsReport.collectedApprovalHours prs u)) ∧
    ((PrsReport.aggregate_pr_stats [prOneApproval] "bob" 0
        604800).avg_hours_to_approval = some 5) ∧
    ("Average hours until approval: 5.00 hours"
        ∈ PrsReport.report_lines
          (PrsReport.aggregate_pr_stats [prOneApproval] "bob" 0 604800)) := by
  refine ⟨?_, ?_, aggregate_prOneApproval_avg, ?_⟩
  · intro pr u
    simpa [PrsReport.process_pr_timings] using
      approvalDeltasLoop_eq_filterMap u pr.created_at pr.reviews
  · intro prs u s e
    simp [PrsReport.aggregate_pr_stats, aggregatePrLoop_closed]
  · have hline : "Average hours until approval: " ++ (fmt2 5 ++ " hours")
        = "Average hours until approval: 5.00 hours" := by
      rw [fmt2_five]
      decide
    simp [PrsReport.report_lines, aggregate_prOneApproval_avg, hline]

/-- C3: in the authored-PR aggregator each pull request contributes exactly
one merge-latency sample `(merged_at - created_at)` in hours iff `merged_at`
is present, and the reported average is the arithmetic mean of these per-PR
samples; two PRs merged 10 and 30 hours after creation yield a mean of
exactly `20.00`. -/
theorem c3_merge_latency_samples :
    (∀ (pr : PullRequest) (u : String),
        (PrsReport.process_pr_timings pr u).2
          = pr.merged_at.map (fun m => hoursBetween pr.created_at m)) ∧
    (∀ (prs : List PullRequest) (u : String) (s e : Int),
        (PrsReport.aggregate_pr_stats prs u s e).avg_hours_to_merge
          = optionalAvg (PrsReport.collectedMergedHours prs u)) ∧
    ((PrsReport.aggregate_pr_stats [prMergedTen, prMergedThirty] "bob" 0
        604800).avg_hours_to_merge = some 20) ∧
    ("Average hours until merge: 20.00 hours"
        ∈ PrsReport.report_lines
          (PrsReport.aggregate_pr_stats [prMergedTen, prMergedThirty] "bob" 0
            604800)) := by
  refine ⟨?_, ?_, aggregate_merged_avg, ?_⟩
  · intro pr u
    cases hm : pr.merged_at <;> simp [PrsReport.process_pr_timings, hm]
  · intro prs u s e
    simp [PrsReport.aggregate_pr_stats, aggregatePrLoop_closed]
  · have hline : "Average hours until merge: " ++ (fmt2 20 ++ " hours")
        = "Average hours until merge: 20.00 hours" := by
      rw [fmt2_twenty]
      decide
    simp [PrsReport.report_lines, aggregate_merged_avg, hline]

/-- C4: in the reviewed-PR aggregator a review event is counted — into the
total, the approval and change-request counters, and the combined latency
sample list — exactly when its actor equals the acting username and its
`submitted_at` lies within `[start, end]`; a review by the acting user
submitted outside the range contributes to no counter even when its parent
PR is processed. -/
theorem c4_reviewed_event_filter :
    (∀ (pr : PullRequest) (u : String) (s e : Int),
        ReviewsReport.process_review_events pr u s e =
          { total := (pr.reviews.filter (specCounted u s e)).length
            approvals := (pr.reviews.filter
              (fun r => specCounted u s e r && specApprovedState r)).length
            changes := (pr.reviews.filter
              (fun r => specCounted u s e r && specChangesState r)).length
            deltas := (pr.reviews.filter (specCounted u s e)).map
              (fun r => hoursBetween pr.created_at (r.submitted_at.getD 0)) }) ∧
    (ReviewsReport.process_review_events prOutOfRangeReview "bob" 0 3600
        = ⟨0, 0, 0, []⟩) ∧
    ((ReviewsReport.aggregate_review_stats [prOutOfRangeReview] "bob" 0
        3600).total_reviews = 0) ∧
    ((ReviewsReport.aggregate_review_stats [prOutOfRangeReview] "bob" 0
        3600).avg_review_hours = none) := by
  refine ⟨?_, by decide, by decide, ?_⟩
  · intro pr u s e
    exact processReviewLoop_eq_filter u pr.created_at s e pr.reviews
  · simp [ReviewsReport.aggregate_review_stats, ReviewsReport.aggregateRevLoop,
      ReviewsReport.process_review_events, ReviewsReport.processReviewLoop,
      prOutOfRangeReview, ReviewsReport.count_comments_for_pr,
      ReviewsReport.countOwnCommentsInRange, optionalAvg]

/-- C5: in the authored-PR aggregator the change-request count equals the
number of reviews with state `CHANGES_REQUESTED` whose actor is present and
distinct from the acting username; a `CHANGES_REQUESTED` review authored by
the acting user never increments the count. -/
theorem c5_change_requests_exclude_self :
    (∀ (u : String) (rs : List Review),
        PrsReport.changeRequestsLoop u rs
          = (rs.filter (specChangeRequest u)).length) ∧
    (∀ (prs : List PullRequest) (u : String) (s e : Int),
        (PrsReport.aggregate_pr_stats prs u s e).change_requests_received
          = (prs.map (fun pr =>
              (pr.reviews.filter (specChangeRequest u)).length)).sum) ∧
    ((PrsReport.aggregate_pr_stats [prSelfChangeRequest] "bob" 0
        3600).change_requests_received = 0) := by
  refine ⟨changeRequestsLoop_eq_filter, ?_, by decide⟩
  intro prs u s e
  simp [PrsReport.aggregate_pr_stats, aggregatePrLoop_closed,
    changeRequestsLoop_eq_filter]

/-- C6: the two variants filter comments asymmetrically — the authored-PR
aggregator counts comments of both kinds whose actor differs from the
username with no timestamp condition, while the reviewed-PR aggregator
counts comments of both kinds only when the actor equals the username and
`created_at` lies within `[start, end]`.  A comment far outside any range by
another actor still counts for the authored variant, while the same-dated
comment by the acting user does not count for the reviewed variant. -/
theorem c6_comment_filter_asymmetry :
    (∀ (pr : PullRequest) (u : String),
        PrsReport.count_comments_received pr u
          = ((pr.review_comments ++ pr.issue_comments).filter
              (specOtherComment u)).length) ∧
    (∀ (pr : PullRequest) (u : String) (s e : Int),
        ReviewsReport.count_comments_for_pr pr u s e
          = ((pr.review_comments ++ pr.issue_comments).filter
              (specOwnCommentInRange u s e)).length) ∧
    (PrsReport.count_comments_received prLateOtherComment "bob" = 1) ∧
    (ReviewsReport.count_comments_for_pr prLateOwnComment "bob" 0 3600 = 0) := by
  refine ⟨?_, ?_, by decide, by decide⟩
  · intro pr u
    simp [PrsReport.count_comments_received, countOtherComments_eq_filter,
      List.filter_append]
  · intro pr u s e
    simp [ReviewsReport.count_comments_for_pr,
      countOwnCommentsInRange_eq_filter, List.filter_append]

/-- C10: `process_review_events` returns `(total, approvals, changes,
deltas)` with `deltas.length = total` and `approvals + changes ≤ total`;
reviews lacking an actor or a `submitted_at` contribute to none of the four
outputs, and each counted review contributes exactly one latency sample
regardless of its state. -/
theorem c10_process_review_events_invariants :
    ∀ (pr : PullRequest) (u : String) (s e : Int),
      ((ReviewsReport.process_review_events pr u s e).deltas.length
          = (ReviewsReport.process_review_events pr u s e).total) ∧
      ((ReviewsReport.process_review_events pr u s e).approvals
          + (ReviewsReport.process_review_events pr u s e).changes
          ≤ (ReviewsReport.process_review_events pr u s e).total) ∧
      (ReviewsReport.processReviewLoop u pr.created_at s e
          (pr.reviews.filter (fun r => r.user.isSome && r.submitted_at.isSome))
        = ReviewsReport.process_review_events pr u s e) ∧
      ((ReviewsReport.process_review_events pr u s e).deltas
        = (pr.reviews.filter (specCounted u s e)).map
            (fun r => hoursBetween pr.created_at (r.submitted_at.getD 0))) := by
  intro pr u s e
  have hchar := processReviewLoop_eq_filter u pr.created_at s e pr.reviews
  have hdisj : ∀ r : Review,
      ¬(specApprovedState r = true ∧ specChangesState r = true) := by
    rintro r ⟨h1, h2⟩
    simp only [specApprovedState, specChangesState, decide_eq_true_eq] at h1 h2
    rw [h1] at h2
    exact absurd h2 (by decide)
  refine ⟨?_, ?_, ?_, ?_⟩
  · rw [ReviewsReport.process_review_events, hchar]
    simp
  · rw [ReviewsReport.process_review_events, hchar]
    exact length_filter_and_disjoint _ _ _ hdisj pr.reviews
  · exact processReviewLoop_drop_malformed u pr.created_at s e pr.reviews
  · rw [ReviewsReport.process_review_events, hchar]

/-- Counterexample to C7 as stated: at the defaulting call site, with `start`
omitted but `end` provided (now 2026-10-12, end parsed as 2020-01-01), the
resolved start is 2025-10-12 — one year before *now* — and not one year
before the resolved end. -/
theorem c7_counterexample :
    (ScriptsGhUtils.parse_date_range (fun _ => ⟨2020, 1, 1, 0, 0, 0⟩) none
        (some "2020-01-01") ⟨2026, 10, 12, 6, 0, 0⟩).1
      ≠ ScriptsGhUtils.subOneYear
          ((ScriptsGhUtils.parse_date_range (fun _ => ⟨2020, 1, 1, 0, 0, 0⟩)
            none (some "2020-01-01") ⟨2026, 10, 12, 6, 0, 0⟩).2) := by
  decide

/-- C7 (amended): at the call site that permits omission, an omitted start
resolves to `now - 1 year` (calendar-aware, clamping the day); therefore
when `end` is also omitted the range is exactly `(end - 1 year, end)` and
ends at the current time. -/
theorem c7_amended_default_is_now_minus_year :
    ∀ (parse : String → ScriptsGhUtils.CivilDateTime)
      (end_ : Option String) (now : ScriptsGhUtils.CivilDateTime),
      (ScriptsGhUtils.parse_date_range parse none end_ now).1
        = ScriptsGhUtils.subOneYear now ∧
      ScriptsGhUtils.parse_date_range parse none none now
        = (ScriptsGhUtils.subOneYear now, now) := by
  intro parse end_ now
  exact ⟨rfl, rfl⟩

/-- Counterexample to C8 as stated: with a credential present but the start
date missing, the run does abort with a `ValueError`, but only after the
`get_authenticated_username` network request has been issued. -/
theorem c8_counterexample :
    ((GhUtils.mainNetTrace (some "token123") (fun _ => 0) none none 0).2
        = some GhUtils.RunAbort.valueError) ∧
    (GhUtils.mainNetTrace (some "token123") (fun _ => 0) none none 0).1
      ≠ [] := by
  exact ⟨rfl, by decide⟩

/-- C8 (amended): a missing (or empty) GitHub credential aborts with an
`EnvironmentError` before any network call; a missing or empty start date
with a valid credential aborts with a `ValueError`, but only after exactly
one network call (the authenticated-username fetch). -/
theorem c8_amended_config_abort_order :
    (∀ (parse : String → Int) (start end_ : Option String) (now : Int),
        GhUtils.mainNetTrace none parse start end_ now
          = ([], some GhUtils.RunAbort.envError)) ∧
    (∀ (parse : String → Int) (start end_ : Option String) (now : Int),
        GhUtils.mainNetTrace (some "") parse start end_ now
          = ([], some GhUtils.RunAbort.envError)) ∧
    (∀ (tok : String) (parse : String → Int) (end_ : Option String)
        (now : Int), tok ≠ "" →
        GhUtils.mainNetTrace (some tok) parse none end_ now
          = ([GhUtils.NetCall.getUser], some GhUtils.RunAbort.valueError)) ∧
    (∀ (tok : String) (parse : String → Int) (end_ : Option String)
        (now : Int), tok ≠ "" →
        GhUtils.mainNetTrace (some tok) parse (some "") end_ now
          = ([GhUtils.NetCall.getUser], some GhUtils.RunAbort.valueError)) := by
  refine ⟨?_, ?_, ?_, ?_⟩
  · intro parse start end_ now
    rfl
  · intro parse start end_ now
    simp [GhUtils.mainNetTrace, GhUtils.get_github_client, strTruthy]
  · intro tok parse end_ now htok
    simp [GhUtils.mainNetTrace, GhUtils.get_github_client,
      GhUtils.parse_date_range, strTruthy, htok]
  · intro tok parse end_ now htok
    simp [GhUtils.mainNetTrace, GhUtils.get_github_client,
      GhUtils.parse_date_range, strTruthy, htok]

/-- Witness for the amended C8 at a concrete input. -/
theorem c8_amended_witness :
    GhUtils.mainNetTrace (some "tok") (fun _ => 0) none none 0
      = ([GhUtils.NetCall.getUser], some GhUtils.RunAbort.valueError) :=
  c8_amended_config_abort_order.2.2.1 "tok" (fun _ => 0) none 0 (by decide)

/-- C9: `post_to_slack` indeed returns a boolean and never raises, but
`post_to_notion` (whose `requests.post` has no surrounding try/except) lets
a raised network exception propagate past the call site, contradicting the
claim and the specification's publisher contract. -/
theorem c9_notion_raises_on_network_failure :
    (Publishers.post_to_notion (some "secret-token") (some "page-id")
        HttpResult.netFailure = Except.error ()) ∧
    (Publishers.post_to_slack (some "hook-url") HttpResult.netFailure
        = Except.ok false) ∧
    (∀ (webhook : Option String) (r : HttpResult), ∃ b : Bool,
        Publishers.post_to_slack webhook r = Except.ok b) := by
  refine ⟨rfl, rfl, ?_⟩
  intro webhook r
  unfold Publishers.post_to_slack
  by_cases h : strTruthy webhook
  · cases r with
    | status c =>
      refine ⟨decide (200 ≤ c ∧ c < 300), ?_⟩
      simp [h]
    | netFailure =>
      refine ⟨false, ?_⟩
      simp [h]
  · exact ⟨false, by simp [h]⟩
